import Mathlib

/-!
Shallow embedding of `backend/dialect_tts/dialect_detector.py`: the
dialect detection and conversion engine (`DialectDetector`).

Python floats are modelled as rationals (`ℚ`): every quantity the engine
computes is a finite sum of small ratios, so the rational model matches
the float computation on all comparisons made here.  Python strings are
Lean `String`s; `pattern in text` is substring containment on the
character lists, and `str.replace` is modelled by `pyReplace` below
(non-overlapping, greedy, leftmost replacement).
-/

namespace DialectDetector

/-- The `DialectType` enum (`dialect_detector.py`, lines 17-23). -/
inductive DialectType where
  | STANDARD
  | SHANGHAI
  | SICHUAN
  | GYEONGSANG
  | JEJU
  | AUTO
deriving DecidableEq, Repr

/-- The `DialectPattern` dataclass (lines 25-31). -/
structure DialectPattern where
  vocabulary : List String
  grammar : List String
  pronunciation : List String
  unique_expressions : List String

/-- `pat` is a prefix of some suffix of `haystack`. -/
def containsAux (pat : List Char) : List Char → Bool
  | [] => pat.isPrefixOf []
  | c :: rest => pat.isPrefixOf (c :: rest) || containsAux pat rest

/-- Python's `pattern in text`: substring containment, decided on the
character lists. -/
def strContains (text pat : String) : Bool :=
  containsAux pat.data text.data

/-- Characters removed by Python's `str.strip()` with no argument, for the
inputs this repository handles (ASCII whitespace). -/
def isPySpace (c : Char) : Bool :=
  c = ' ' || c = '\t' || c = '\n' || c = '\r' || c = '\x0b' || c = '\x0c'

/-- Python's `not text or not text.strip()`: the text is empty or all
whitespace. -/
def isBlank (text : String) : Bool :=
  text.data.all isPySpace

/-- SHANGHAI entry of `self.dialect_patterns` (lines 39-55). -/
def shanghaiPattern : DialectPattern where
  vocabulary :=
    ["侬", "阿拉", "今朝", "蛮好", "再会", "啥", "哪能",
     "啥地方", "谢谢侬", "做生活", "困觉", "屋里", "学堂",
     "伊", "伊拉", "个", "个能", "个么", "个辰光"]
  grammar :=
    ["啥地方", "哪能", "做生活", "困觉", "个能", "个么",
     "个辰光", "个搭", "个里", "个面"]
  pronunciation :=
    ["zh→z", "ch→c", "sh→s", "r→l", "an→ang", "en→eng"]
  unique_expressions :=
    ["侬好", "今朝", "蛮好", "阿拉", "伊拉", "个能"]

/-- SICHUAN entry of `self.dialect_patterns` (lines 56-70). -/
def sichuanPattern : DialectPattern where
  vocabulary :=
    ["巴适", "安逸", "要得", "瓜娃子", "哈儿", "锤子",
     "整", "得行", "咋个", "啥子", "啷个", "巴适得很"]
  grammar :=
    ["巴适得很", "要得不", "咋个整", "啷个办", "啥子嘛"]
  pronunciation :=
    ["n→l", "l→n", "tone_merging", "rising_tone"]
  unique_expressions :=
    ["巴适", "安逸", "要得", "瓜娃子", "哈儿"]

/-- GYEONGSANG entry of `self.dialect_patterns` (lines 71-85). -/
def gyeongsangPattern : DialectPattern where
  vocabulary :=
    ["오이소", "모하노", "어디가", "뭐하노", "어떻게", "왜그래",
     "그래서", "그러면", "그런데", "그러니까"]
  grammar :=
    ["오이소", "모하노", "어디가", "뭐하노", "왜그래"]
  pronunciation :=
    ["rising_tone", "final_rising", "vowel_lengthening"]
  unique_expressions :=
    ["오이소", "모하노", "어디가", "뭐하노"]

/-- JEJU entry of `self.dialect_patterns` (lines 86-100). -/
def jejuPattern : DialectPattern where
  vocabulary :=
    ["혼저", "옵서예", "하르방", "할망", "고사리", "돌하르방",
     "돌하르방이", "돌하르방이야", "돌하르방이요"]
  grammar :=
    ["혼저 옵서예", "하르방", "할망", "돌하르방"]
  pronunciation :=
    ["vowel_merging", "consonant_weakening", "tone_simplification"]
  unique_expressions :=
    ["혼저 옵서예", "하르방", "할망", "돌하르방"]

/-- STANDARD entry of `self.dialect_patterns` (lines 101-116). -/
def standardPattern : DialectPattern where
  vocabulary :=
    ["你好", "今天", "很好", "我们", "你们", "什么", "怎么",
     "哪里", "谢谢", "再见", "吃饭", "睡觉", "工作", "学习",
     "朋友", "家", "学校", "医院", "商店", "银行"]
  grammar :=
    ["什么地方", "怎么", "工作", "学习", "朋友"]
  pronunciation :=
    ["zh", "ch", "sh", "r", "standard_tones"]
  unique_expressions :=
    ["你好", "今天", "很好", "我们", "你们"]

/-- `self.dialect_patterns` in its (insertion-ordered) declaration order
(lines 38-117). -/
def dialect_patterns : List (DialectType × DialectPattern) :=
  [(DialectType.SHANGHAI, shanghaiPattern),
   (DialectType.SICHUAN, sichuanPattern),
   (DialectType.GYEONGSANG, gyeongsangPattern),
   (DialectType.JEJU, jejuPattern),
   (DialectType.STANDARD, standardPattern)]

/-- `self.weights` (lines 120-125), as rationals. -/
def weights_vocabulary : ℚ := 3
def weights_grammar : ℚ := 2
def weights_pronunciation : ℚ := 3 / 2
def weights_unique_expressions : ℚ := 4

/-- `_calculate_pattern_score` (lines 191-201): the fraction of pattern
entries that occur as substrings of `text`; `0` for an empty pattern
list. -/
def calculate_pattern_score (text : String) (patterns : List String) : ℚ :=
  if patterns = [] then 0
  else (patterns.countP (fun p => strContains text p) : ℚ) / (patterns.length : ℚ)

/-- `_calculate_dialect_score` (lines 163-189): the weighted sum of the
four category scores (pronunciation fixed to `0.0`), divided by the
total weight. -/
def calculate_dialect_score (text : String) (pattern : DialectPattern) : ℚ :=
  let vocab_score := calculate_pattern_score text pattern.vocabulary
  let grammar_score := calculate_pattern_score text pattern.grammar
  let pronunciation_score : ℚ := 0
  let unique_score := calculate_pattern_score text pattern.unique_expressions
  let total_score :=
    vocab_score * weights_vocabulary + grammar_score * weights_grammar +
      pronunciation_score * weights_pronunciation +
      unique_score * weights_unique_expressions
  let total_weight :=
    weights_vocabulary + weights_grammar + weights_pronunciation +
      weights_unique_expressions
  if 0 < total_weight then total_score / total_weight else 0

/-- Python's `max(scores, key=scores.get)` over an insertion-ordered dict:
scan the remaining entries, replacing the current best only on a strictly
greater score, so the first of several maximal entries wins. -/
def pickBest (rest : List (DialectType × ℚ)) (acc : DialectType × ℚ) :
    DialectType × ℚ :=
  rest.foldl (fun acc p => if acc.2 < p.2 then p else acc) acc

/-- The per-dialect scores computed by `detect_dialect` (lines 141-148):
every profile except STANDARD, in declaration order. -/
def nonStandardScores (text : String) : List (DialectType × ℚ) :=
  (dialect_patterns.filter (fun p => p.1 ≠ DialectType.STANDARD)).map
    (fun p => (p.1, calculate_dialect_score text p.2))

/-- `detect_dialect` (lines 127-161). -/
def detect_dialect (text : String) (confidence_threshold : ℚ) :
    DialectType × ℚ :=
  if isBlank text then (DialectType.STANDARD, 0)
  else
    match nonStandardScores text with
    | [] => (DialectType.STANDARD, 0)
    | s :: rest =>
      let best := pickBest rest s
      if best.2 < confidence_threshold then (DialectType.STANDARD, best.2)
      else best

/-- Python's `str.replace(old, new)` on character lists, for a non-empty
`old`: non-overlapping, greedy, leftmost replacement, driven by fuel
(one unit per character consumed, so `s.length` fuel always suffices). -/
def replaceFuel : Nat → List Char → List Char → List Char → List Char
  | 0, s, _, _ => s
  | _ + 1, [], _, _ => []
  | fuel + 1, c :: rest, old, new =>
    if old ≠ [] ∧ old.isPrefixOf (c :: rest) then
      new ++ replaceFuel fuel ((c :: rest).drop old.length) old new
    else c :: replaceFuel fuel rest old new

/-- Python's `str.replace(old, new)` for a non-empty `old`. -/
def pyReplace (s old new : String) : String :=
  ⟨replaceFuel s.data.length s.data old.data new.data⟩

/-- SHANGHAI entry of `conversion_rules` (lines 224-245), in insertion
order. -/
def shanghaiConversionRules : List (String × String) :=
  [("你好", "侬好"), ("今天", "今朝"), ("很好", "蛮好"), ("我们", "阿拉"),
   ("你们", "侬拉"), ("什么", "啥"), ("怎么", "哪能"), ("哪里", "啥地方"),
   ("谢谢", "谢谢侬"), ("再见", "再会"), ("吃饭", "吃饭"), ("睡觉", "困觉"),
   ("工作", "做生活"), ("学习", "读书"), ("朋友", "朋友"), ("家", "屋里"),
   ("学校", "学堂"), ("医院", "医院"), ("商店", "店"), ("银行", "银行")]

/-- SICHUAN entry of `conversion_rules` (lines 246-262), in insertion
order. -/
def sichuanConversionRules : List (String × String) :=
  [("很好", "巴适"), ("可以", "要得"), ("怎么样", "啷个"), ("什么", "啥子"),
   ("怎么", "啷个"), ("哪里", "哪搭"), ("这里", "这搭"), ("那里", "那搭"),
   ("这个", "这个"), ("那个", "那个"), ("人", "人"), ("东西", "东西"),
   ("事情", "事情"), ("问题", "问题"), ("办法", "办法")]

/-- `conversion_rules` lookup (lines 223-263): only SHANGHAI and SICHUAN
have conversion maps. -/
def conversionRules : DialectType → Option (List (String × String))
  | DialectType.SHANGHAI => some shanghaiConversionRules
  | DialectType.SICHUAN => some sichuanConversionRules
  | _ => none

/-- `suggest_dialect_conversion` (lines 217-274): identity for STANDARD,
identity for a target with no conversion rules, otherwise sequential
`str.replace` of each rule in insertion order. -/
def suggest_dialect_conversion (text : String) (target_dialect : DialectType) :
    String :=
  if target_dialect = DialectType.STANDARD then text
  else
    match conversionRules target_dialect with
    | none => text
    | some rules =>
      rules.foldl (fun converted r => pyReplace converted r.1 r.2) text

/-- The dialects `detect_dialect` actually scores, in declaration order of
`self.dialect_patterns` (STANDARD is skipped, AUTO has no profile). -/
def scoredDialects : List DialectType :=
  [DialectType.SHANGHAI, DialectType.SICHUAN, DialectType.GYEONGSANG,
   DialectType.JEJU]

/-- The score `_calculate_dialect_score` assigns to each profiled dialect
(0 for AUTO, which has no profile). -/
def scoreOf (text : String) : DialectType → ℚ
  | DialectType.SHANGHAI => calculate_dialect_score text shanghaiPattern
  | DialectType.SICHUAN => calculate_dialect_score text sichuanPattern
  | DialectType.GYEONGSANG => calculate_dialect_score text gyeongsangPattern
  | DialectType.JEJU => calculate_dialect_score text jejuPattern
  | DialectType.STANDARD => calculate_dialect_score text standardPattern
  | DialectType.AUTO => 0

/-- The maximal score over the four non-STANDARD profiles. -/
def bestScore (text : String) : ℚ :=
  max (max (max (scoreOf text DialectType.SHANGHAI)
        (scoreOf text DialectType.SICHUAN))
      (scoreOf text DialectType.GYEONGSANG))
    (scoreOf text DialectType.JEJU)

/-- The earliest-declared non-STANDARD profile attaining the maximal score,
paired with its score: the declaration order of `self.dialect_patterns` is
SHANGHAI, SICHUAN, GYEONGSANG, JEJU. -/
def firstArgmax (text : String) : DialectType × ℚ :=
  if scoreOf text DialectType.SHANGHAI = bestScore text then
    (DialectType.SHANGHAI, scoreOf text DialectType.SHANGHAI)
  else if scoreOf text DialectType.SICHUAN = bestScore text then
    (DialectType.SICHUAN, scoreOf text DialectType.SICHUAN)
  else if scoreOf text DialectType.GYEONGSANG = bestScore text then
    (DialectType.GYEONGSANG, scoreOf text DialectType.GYEONGSANG)
  else
    (DialectType.JEJU, scoreOf text DialectType.JEJU)

/-! ### Basic lemmas about pattern matching and scores -/

lemma containsAux_correct (pat : List Char) :
    ∀ hay : List Char, containsAux pat hay = true ↔ pat <:+: hay := by
  intro hay
  induction hay with
  | nil =>
    simp [containsAux, List.isPrefixOf_iff_prefix, List.prefix_nil,
      List.infix_nil]
  | cons c rest ih =>
    simp [containsAux, Bool.or_eq_true, List.isPrefixOf_iff_prefix, ih,
      List.infix_cons_iff]

lemma strContains_eq_decide (text pat : String) :
    strContains text pat = decide (pat.data <:+: text.data) := by
  by_cases h : pat.data <:+: text.data
  · rw [strContains, (containsAux_correct pat.data text.data).mpr h,
      decide_eq_true h]
  · rw [strContains, decide_eq_false h, Bool.eq_false_iff]
    intro htrue
    exact h ((containsAux_correct pat.data text.data).mp htrue)

lemma calculate_pattern_score_of_ne_nil (text : String) (patterns : List String)
    (h : patterns ≠ []) :
    calculate_pattern_score text patterns =
      (patterns.countP (fun p => strContains text p) : ℚ) /
        (patterns.length : ℚ) := by
  unfold calculate_pattern_score
  rw [if_neg h]

lemma calculate_pattern_score_nonneg (text : String) (patterns : List String) :
    0 ≤ calculate_pattern_score text patterns := by
  unfold calculate_pattern_score
  split_ifs
  · exact le_refl 0
  · exact div_nonneg (Nat.cast_nonneg _) (Nat.cast_nonneg _)

lemma calculate_pattern_score_le_one (text : String) (patterns : List String) :
    calculate_pattern_score text patterns ≤ 1 := by
  unfold calculate_pattern_score
  split_ifs with h
  · norm_num
  · rw [div_le_one (by exact_mod_cast List.length_pos.mpr h)]
    exact_mod_cast List.countP_le_length _

lemma calculate_dialect_score_eq (text : String) (pat : DialectPattern) :
    calculate_dialect_score text pat =
      (calculate_pattern_score text pat.vocabulary * 3 +
        calculate_pattern_score text pat.grammar * 2 + 0 * (3 / 2) +
        calculate_pattern_score text pat.unique_expressions * 4) / (21 / 2) := by
  simp only [calculate_dialect_score, weights_vocabulary, weights_grammar,
    weights_pronunciation, weights_unique_expressions]
  rw [if_pos (show (0 : ℚ) < 3 + 2 + 3 / 2 + 4 by norm_num)]
  norm_num

lemma calculate_dialect_score_nonneg (text : String) (pat : DialectPattern) :
    0 ≤ calculate_dialect_score text pat := by
  rw [calculate_dialect_score_eq]
  have hv := calculate_pattern_score_nonneg text pat.vocabulary
  have hg := calculate_pattern_score_nonneg text pat.grammar
  have hu := calculate_pattern_score_nonneg text pat.unique_expressions
  apply div_nonneg (by linarith) (by norm_num)

lemma calculate_dialect_score_le (text : String) (pat : DialectPattern) :
    calculate_dialect_score text pat ≤ 6 / 7 := by
  rw [calculate_dialect_score_eq]
  have hv := calculate_pattern_score_le_one text pat.vocabulary
  have hg := calculate_pattern_score_le_one text pat.grammar
  have hu := calculate_pattern_score_le_one text pat.unique_expressions
  rw [div_le_iff₀ (show (0 : ℚ) < 21 / 2 by norm_num)]
  linarith

lemma calculate_dialect_score_eval (text : String) (pat : DialectPattern)
    (nv ng nu lv lg lu : ℕ)
    (hv : pat.vocabulary.countP (fun p => strContains text p) = nv)
    (hg : pat.grammar.countP (fun p => strContains text p) = ng)
    (hu : pat.unique_expressions.countP (fun p => strContains text p) = nu)
    (hlv : pat.vocabulary.length = lv) (hlg : pat.grammar.length = lg)
    (hlu : pat.unique_expressions.length = lu)
    (hv0 : lv ≠ 0) (hg0 : lg ≠ 0) (hu0 : lu ≠ 0) :
    calculate_dialect_score text pat =
      ((nv : ℚ) / (lv : ℚ) * 3 + (ng : ℚ) / (lg : ℚ) * 2 + 0 * (3 / 2) +
        (nu : ℚ) / (lu : ℚ) * 4) / (21 / 2) := by
  have hvne : pat.vocabulary ≠ [] := by
    intro hnil
    rw [hnil] at hlv
    exact hv0 hlv.symm
  have hgne : pat.grammar ≠ [] := by
    intro hnil
    rw [hnil] at hlg
    exact hg0 hlg.symm
  have hune : pat.unique_expressions ≠ [] := by
    intro hnil
    rw [hnil] at hlu
    exact hu0 hlu.symm
  rw [calculate_dialect_score_eq,
    calculate_pattern_score_of_ne_nil text pat.vocabulary hvne,
    calculate_pattern_score_of_ne_nil text pat.grammar hgne,
    calculate_pattern_score_of_ne_nil text pat.unique_expressions hune,
    hv, hg, hu, hlv, hlg, hlu]

/-! ### The selection step of `detect_dialect` -/

lemma pickBest_nil (acc : DialectType × ℚ) : pickBest [] acc = acc := rfl

lemma pickBest_cons_pair (d e : DialectType) (a b : ℚ)
    (rest : List (DialectType × ℚ)) :
    pickBest ((e, b) :: rest) (d, a) =
      pickBest rest (if a < b then (e, b) else (d, a)) := rfl

lemma pickBest4_eq (d₁ d₂ d₃ d₄ : DialectType) (s₁ s₂ s₃ s₄ : ℚ) :
    pickBest [(d₂, s₂), (d₃, s₃), (d₄, s₄)] (d₁, s₁) =
      if s₁ = max (max (max s₁ s₂) s₃) s₄ then (d₁, s₁)
      else if s₂ = max (max (max s₁ s₂) s₃) s₄ then (d₂, s₂)
      else if s₃ = max (max (max s₁ s₂) s₃) s₄ then (d₃, s₃)
      else (d₄, s₄) := by
  have h1 : s₁ ≤ max (max (max s₁ s₂) s₃) s₄ :=
    le_max_of_le_left (le_max_of_le_left (le_max_left _ _))
  have h2 : s₂ ≤ max (max (max s₁ s₂) s₃) s₄ :=
    le_max_of_le_left (le_max_of_le_left (le_max_right _ _))
  have h3 : s₃ ≤ max (max (max s₁ s₂) s₃) s₄ :=
    le_max_of_le_left (le_max_right _ _)
  have h4 : s₄ ≤ max (max (max s₁ s₂) s₃) s₄ := le_max_right _ _
  by_cases e1 : s₁ = max (max (max s₁ s₂) s₃) s₄
  · rw [if_pos e1, pickBest_cons_pair,
      if_neg (not_lt.2 (le_of_le_of_eq h2 e1.symm)), pickBest_cons_pair,
      if_neg (not_lt.2 (le_of_le_of_eq h3 e1.symm)), pickBest_cons_pair,
      if_neg (not_lt.2 (le_of_le_of_eq h4 e1.symm)), pickBest_nil]
  · rw [if_neg e1]
    have l1 : s₁ < max (max (max s₁ s₂) s₃) s₄ := lt_of_le_of_ne h1 e1
    by_cases e2 : s₂ = max (max (max s₁ s₂) s₃) s₄
    · rw [if_pos e2, pickBest_cons_pair,
        if_pos (lt_of_lt_of_le l1 e2.symm.le), pickBest_cons_pair,
        if_neg (not_lt.2 (le_of_le_of_eq h3 e2.symm)), pickBest_cons_pair,
        if_neg (not_lt.2 (le_of_le_of_eq h4 e2.symm)), pickBest_nil]
    · rw [if_neg e2]
      have l2 : s₂ < max (max (max s₁ s₂) s₃) s₄ := lt_of_le_of_ne h2 e2
      by_cases e3 : s₃ = max (max (max s₁ s₂) s₃) s₄
      · rw [if_pos e3]
        rcases lt_or_le s₁ s₂ with h12 | h12
        · rw [pickBest_cons_pair, if_pos h12, pickBest_cons_pair,
            if_pos (lt_of_lt_of_le l2 e3.symm.le), pickBest_cons_pair,
            if_neg (not_lt.2 (le_of_le_of_eq h4 e3.symm)), pickBest_nil]
        · rw [pickBest_cons_pair, if_neg (not_lt.2 h12), pickBest_cons_pair,
            if_pos (lt_of_lt_of_le l1 e3.symm.le), pickBest_cons_pair,
            if_neg (not_lt.2 (le_of_le_of_eq h4 e3.symm)), pickBest_nil]
      · rw [if_neg e3]
        have l3 : s₃ < max (max (max s₁ s₂) s₃) s₄ := lt_of_le_of_ne h3 e3
        have e4 : s₄ = max (max (max s₁ s₂) s₃) s₄ := by
          rcases max_choice (max (max s₁ s₂) s₃) s₄ with h | h
          · exfalso
            rcases max_choice (max s₁ s₂) s₃ with h' | h'
            · rcases max_choice s₁ s₂ with h'' | h''
              · exact e1 (h.trans (h'.trans h'')).symm
              · exact e2 (h.trans (h'.trans h'')).symm
            · exact e3 (h.trans h').symm
          · exact h.symm
        rcases lt_or_le s₁ s₂ with h12 | h12
        · rcases lt_or_le s₂ s₃ with h23 | h23
          · rw [pickBest_cons_pair, if_pos h12, pickBest_cons_pair,
              if_pos h23, pickBest_cons_pair,
              if_pos (lt_of_lt_of_le l3 e4.symm.le), pickBest_nil]
          · rw [pickBest_cons_pair, if_pos h12, pickBest_cons_pair,
              if_neg (not_lt.2 h23), pickBest_cons_pair,
              if_pos (lt_of_lt_of_le l2 e4.symm.le), pickBest_nil]
        · rcases lt_or_le s₁ s₃ with h13 | h13
          · rw [pickBest_cons_pair, if_neg (not_lt.2 h12), pickBest_cons_pair,
              if_pos h13, pickBest_cons_pair,
              if_pos (lt_of_lt_of_le l3 e4.symm.le), pickBest_nil]
          · rw [pickBest_cons_pair, if_neg (not_lt.2 h12), pickBest_cons_pair,
              if_neg (not_lt.2 h13), pickBest_cons_pair,
              if_pos (lt_of_lt_of_le l1 e4.symm.le), pickBest_nil]

lemma nonStandardScores_eq (text : String) :
    nonStandardScores text =
      [(DialectType.SHANGHAI, scoreOf text DialectType.SHANGHAI),
       (DialectType.SICHUAN, scoreOf text DialectType.SICHUAN),
       (DialectType.GYEONGSANG, scoreOf text DialectType.GYEONGSANG),
       (DialectType.JEJU, scoreOf text DialectType.JEJU)] := rfl

lemma bestScore_cases (text : String) :
    scoreOf text DialectType.SHANGHAI = bestScore text ∨
      scoreOf text DialectType.SICHUAN = bestScore text ∨
      scoreOf text DialectType.GYEONGSANG = bestScore text ∨
      scoreOf text DialectType.JEJU = bestScore text := by
  unfold bestScore
  rcases max_choice
      (max (max (scoreOf text DialectType.SHANGHAI)
          (scoreOf text DialectType.SICHUAN))
        (scoreOf text DialectType.GYEONGSANG))
      (scoreOf text DialectType.JEJU) with h | h
  · rcases max_choice
        (max (scoreOf text DialectType.SHANGHAI)
          (scoreOf text DialectType.SICHUAN))
        (scoreOf text DialectType.GYEONGSANG) with h' | h'
    · rcases max_choice (scoreOf text DialectType.SHANGHAI)
          (scoreOf text DialectType.SICHUAN) with h'' | h''
      · exact Or.inl (h.trans (h'.trans h'')).symm
      · exact Or.inr (Or.inl (h.trans (h'.trans h'')).symm)
    · exact Or.inr (Or.inr (Or.inl (h.trans h').symm))
  · exact Or.inr (Or.inr (Or.inr h.symm))

lemma scoreOf_nonneg (text : String) (d : DialectType) :
    0 ≤ scoreOf text d := by
  cases d <;>
    first
      | exact calculate_dialect_score_nonneg text _
      | exact le_refl 0

lemma scoreOf_le (text : String) (d : DialectType) :
    scoreOf text d ≤ 6 / 7 := by
  cases d <;>
    first
      | exact calculate_dialect_score_le text _
      | norm_num [scoreOf]

lemma bestScore_nonneg (text : String) : 0 ≤ bestScore text :=
  le_max_of_le_right (scoreOf_nonneg text DialectType.JEJU)

lemma bestScore_le (text : String) : bestScore text ≤ 6 / 7 :=
  max_le
    (max_le
      (max_le (scoreOf_le text DialectType.SHANGHAI)
        (scoreOf_le text DialectType.SICHUAN))
      (scoreOf_le text DialectType.GYEONGSANG))
    (scoreOf_le text DialectType.JEJU)

lemma firstArgmax_snd (text : String) :
    (firstArgmax text).2 = bestScore text := by
  unfold firstArgmax
  split_ifs with hA hB hC
  · exact hA
  · exact hB
  · exact hC
  · rcases bestScore_cases text with h | h | h | h
    · exact absurd h hA
    · exact absurd h hB
    · exact absurd h hC
    · exact h

lemma firstArgmax_fst_mem (text : String) :
    (firstArgmax text).1 ∈ scoredDialects := by
  unfold firstArgmax
  split_ifs <;> simp [scoredDialects]

lemma firstArgmax_scoreOf (text : String) :
    scoreOf text (firstArgmax text).1 = bestScore text := by
  unfold firstArgmax
  split_ifs with hA hB hC
  · exact hA
  · exact hB
  · exact hC
  · rcases bestScore_cases text with h | h | h | h
    · exact absurd h hA
    · exact absurd h hB
    · exact absurd h hC
    · exact h

lemma mem_scoredDialects_ne (d : DialectType) (hd : d ∈ scoredDialects) :
    d ≠ DialectType.AUTO ∧ d ≠ DialectType.STANDARD := by
  fin_cases hd <;> exact ⟨(fun h => nomatch h), (fun h => nomatch h)⟩

lemma detect_dialect_of_blank (text : String) (θ : ℚ)
    (h : isBlank text = true) :
    detect_dialect text θ = (DialectType.STANDARD, 0) := by
  unfold detect_dialect
  rw [h]
  rfl

lemma firstArgmax_eq_chain (text : String) :
    firstArgmax text =
      if scoreOf text DialectType.SHANGHAI =
          max (max (max (scoreOf text DialectType.SHANGHAI)
                (scoreOf text DialectType.SICHUAN))
              (scoreOf text DialectType.GYEONGSANG))
            (scoreOf text DialectType.JEJU) then
        (DialectType.SHANGHAI, scoreOf text DialectType.SHANGHAI)
      else if scoreOf text DialectType.SICHUAN =
          max (max (max (scoreOf text DialectType.SHANGHAI)
                (scoreOf text DialectType.SICHUAN))
              (scoreOf text DialectType.GYEONGSANG))
            (scoreOf text DialectType.JEJU) then
        (DialectType.SICHUAN, scoreOf text DialectType.SICHUAN)
      else if scoreOf text DialectType.GYEONGSANG =
          max (max (max (scoreOf text DialectType.SHANGHAI)
                (scoreOf text DialectType.SICHUAN))
              (scoreOf text DialectType.GYEONGSANG))
            (scoreOf text DialectType.JEJU) then
        (DialectType.GYEONGSANG, scoreOf text DialectType.GYEONGSANG)
      else (DialectType.JEJU, scoreOf text DialectType.JEJU) := rfl

lemma detect_dialect_of_not_blank (text : String) (θ : ℚ)
    (h : isBlank text = false) :
    detect_dialect text θ =
      if bestScore text < θ then (DialectType.STANDARD, bestScore text)
      else firstArgmax text := by
  unfold detect_dialect
  rw [h]
  simp only [Bool.false_eq_true, if_false, nonStandardScores_eq]
  rw [pickBest4_eq, ← firstArgmax_eq_chain, firstArgmax_snd]

/-! ### Concrete evaluations on the example texts -/

lemma shanghai_score_example :
    calculate_dialect_score "侬好，今朝天气蛮好" shanghaiPattern = 94 / 399 := by
  rw [calculate_dialect_score_eval "侬好，今朝天气蛮好" shanghaiPattern
    3 0 3 19 10 6 (by decide) (by decide) (by decide) (by decide) (by decide)
    (by decide) (by decide) (by decide) (by decide)]
  norm_num

lemma sichuan_score_example :
    calculate_dialect_score "侬好，今朝天气蛮好" sichuanPattern = 0 := by
  rw [calculate_dialect_score_eval "侬好，今朝天气蛮好" sichuanPattern
    0 0 0 12 5 5 (by decide) (by decide) (by decide) (by decide) (by decide)
    (by decide) (by decide) (by decide) (by decide)]
  norm_num

lemma gyeongsang_score_example :
    calculate_dialect_score "侬好，今朝天气蛮好" gyeongsangPattern = 0 := by
  rw [calculate_dialect_score_eval "侬好，今朝天气蛮好" gyeongsangPattern
    0 0 0 10 5 4 (by decide) (by decide) (by decide) (by decide) (by decide)
    (by decide) (by decide) (by decide) (by decide)]
  norm_num

lemma jeju_score_example :
    calculate_dialect_score "侬好，今朝天气蛮好" jejuPattern = 0 := by
  rw [calculate_dialect_score_eval "侬好，今朝天气蛮好" jejuPattern
    0 0 0 9 4 4 (by decide) (by decide) (by decide) (by decide) (by decide)
    (by decide) (by decide) (by decide) (by decide)]
  norm_num

lemma bestScore_example : bestScore "侬好，今朝天气蛮好" = 94 / 399 := by
  unfold bestScore
  simp only [scoreOf, shanghai_score_example, sichuan_score_example,
    gyeongsang_score_example, jeju_score_example]
  rw [max_eq_left (by norm_num : (0 : ℚ) ≤ 94 / 399),
    max_eq_left (by norm_num : (0 : ℚ) ≤ 94 / 399),
    max_eq_left (by norm_num : (0 : ℚ) ≤ 94 / 399)]

lemma shanghai_score_abc : calculate_dialect_score "abc" shanghaiPattern = 0 := by
  rw [calculate_dialect_score_eval "abc" shanghaiPattern
    0 0 0 19 10 6 (by decide) (by decide) (by decide) (by decide) (by decide)
    (by decide) (by decide) (by decide) (by decide)]
  norm_num

lemma sichuan_score_abc : calculate_dialect_score "abc" sichuanPattern = 0 := by
  rw [calculate_dialect_score_eval "abc" sichuanPattern
    0 0 0 12 5 5 (by decide) (by decide) (by decide) (by decide) (by decide)
    (by decide) (by decide) (by decide) (by decide)]
  norm_num

lemma gyeongsang_score_abc :
    calculate_dialect_score "abc" gyeongsangPattern = 0 := by
  rw [calculate_dialect_score_eval "abc" gyeongsangPattern
    0 0 0 10 5 4 (by decide) (by decide) (by decide) (by decide) (by decide)
    (by decide) (by decide) (by decide) (by decide)]
  norm_num

lemma jeju_score_abc : calculate_dialect_score "abc" jejuPattern = 0 := by
  rw [calculate_dialect_score_eval "abc" jejuPattern
    0 0 0 9 4 4 (by decide) (by decide) (by decide) (by decide) (by decide)
    (by decide) (by decide) (by decide) (by decide)]
  norm_num

lemma bestScore_abc : bestScore "abc" = 0 := by
  unfold bestScore
  simp only [scoreOf, shanghai_score_abc, sichuan_score_abc,
    gyeongsang_score_abc, jeju_score_abc, max_self]

lemma detect_example :
    detect_dialect "侬好，今朝天气蛮好" (3 / 10) =
      (DialectType.STANDARD, 94 / 399) := by
  rw [detect_dialect_of_not_blank "侬好，今朝天气蛮好" (3 / 10) (by decide),
    if_pos (by rw [bestScore_example]; norm_num), bestScore_example]

/-! ### Claim theorems -/

/-- C1: for every non-empty, non-whitespace text and every non-STANDARD
dialect profile, the score `detect_dialect` computes for that profile is
`(matches/total over vocabulary)*3 + (matches/total over grammar)*2 +
0*1.5 + (matches/total over unique expressions)*4`, all divided by 10.5,
where an entry matches exactly when it is a substring of the text; the
pronunciation term contributes 0. -/
theorem detect_score_formula (text : String) (_h : isBlank text = false)
    (d : DialectType) (pat : DialectPattern)
    (hmem : (d, pat) ∈ dialect_patterns) (hd : d ≠ DialectType.STANDARD) :
    (d, calculate_dialect_score text pat) ∈ nonStandardScores text ∧
    calculate_dialect_score text pat =
      ((pat.vocabulary.countP (fun p => decide (p.data <:+: text.data)) : ℚ) /
            (pat.vocabulary.length : ℚ) * 3 +
          (pat.grammar.countP (fun p => decide (p.data <:+: text.data)) : ℚ) /
            (pat.grammar.length : ℚ) * 2 +
          0 * (3 / 2) +
          (pat.unique_expressions.countP
              (fun p => decide (p.data <:+: text.data)) : ℚ) /
            (pat.unique_expressions.length : ℚ) * 4) / (21 / 2) := by
  simp only [dialect_patterns, List.mem_cons, List.not_mem_nil, or_false,
    Prod.mk.injEq] at hmem
  rcases hmem with ⟨rfl, rfl⟩ | ⟨rfl, rfl⟩ | ⟨rfl, rfl⟩ | ⟨rfl, rfl⟩ | ⟨rfl, rfl⟩
  · refine ⟨by simp [nonStandardScores_eq, scoreOf], ?_⟩
    rw [calculate_dialect_score_eq,
      calculate_pattern_score_of_ne_nil text shanghaiPattern.vocabulary
        (by decide),
      calculate_pattern_score_of_ne_nil text shanghaiPattern.grammar
        (by decide),
      calculate_pattern_score_of_ne_nil text shanghaiPattern.unique_expressions
        (by decide)]
    simp only [strContains_eq_decide]
  · refine ⟨by simp [nonStandardScores_eq, scoreOf], ?_⟩
    rw [calculate_dialect_score_eq,
      calculate_pattern_score_of_ne_nil text sichuanPattern.vocabulary
        (by decide),
      calculate_pattern_score_of_ne_nil text sichuanPattern.grammar
        (by decide),
      calculate_pattern_score_of_ne_nil text sichuanPattern.unique_expressions
        (by decide)]
    simp only [strContains_eq_decide]
  · refine ⟨by simp [nonStandardScores_eq, scoreOf], ?_⟩
    rw [calculate_dialect_score_eq,
      calculate_pattern_score_of_ne_nil text gyeongsangPattern.vocabulary
        (by decide),
      calculate_pattern_score_of_ne_nil text gyeongsangPattern.grammar
        (by decide),
      calculate_pattern_score_of_ne_nil text
        gyeongsangPattern.unique_expressions (by decide)]
    simp only [strContains_eq_decide]
  · refine ⟨by simp [nonStandardScores_eq, scoreOf], ?_⟩
    rw [calculate_dialect_score_eq,
      calculate_pattern_score_of_ne_nil text jejuPattern.vocabulary
        (by decide),
      calculate_pattern_score_of_ne_nil text jejuPattern.grammar (by decide),
      calculate_pattern_score_of_ne_nil text jejuPattern.unique_expressions
        (by decide)]
    simp only [strContains_eq_decide]
  · exact absurd rfl hd

/-- Witness for C1 at text `"abc"` and the SHANGHAI profile. -/
theorem detect_score_formula_witness :
    (DialectType.SHANGHAI, calculate_dialect_score "abc" shanghaiPattern) ∈
        nonStandardScores "abc" ∧
    calculate_dialect_score "abc" shanghaiPattern =
      ((shanghaiPattern.vocabulary.countP
            (fun p => decide (p.data <:+: "abc".data)) : ℚ) /
            (shanghaiPattern.vocabulary.length : ℚ) * 3 +
          (shanghaiPattern.grammar.countP
              (fun p => decide (p.data <:+: "abc".data)) : ℚ) /
            (shanghaiPattern.grammar.length : ℚ) * 2 +
          0 * (3 / 2) +
          (shanghaiPattern.unique_expressions.countP
              (fun p => decide (p.data <:+: "abc".data)) : ℚ) /
            (shanghaiPattern.unique_expressions.length : ℚ) * 4) / (21 / 2) :=
  detect_score_formula "abc" rfl DialectType.SHANGHAI shanghaiPattern
    (List.mem_cons_self _ _) (fun hc => nomatch hc)

/-- C2 counterexample: on the text `"侬好，今朝天气蛮好"` with the default
threshold 0.3, `detect_dialect` returns STANDARD with confidence below 0.3,
not SHANGHAI with confidence at least 0.3 as the claim states. -/
theorem detect_shanghai_example_refuted :
    (detect_dialect "侬好，今朝天气蛮好" (3 / 10)).1 = DialectType.STANDARD ∧
    (detect_dialect "侬好，今朝天气蛮好" (3 / 10)).2 < 3 / 10 := by
  rw [detect_example]
  exact ⟨rfl, by norm_num⟩

/-- C2 amended: on that text the best-scoring profile is SHANGHAI with
score 94/399 ≈ 0.236, which falls below the 0.3 threshold, so
`detect_dialect` returns `(STANDARD, 94/399)`. -/
theorem detect_shanghai_example_amended :
    detect_dialect "侬好，今朝天气蛮好" (3 / 10) =
      (DialectType.STANDARD, 94 / 399) ∧
    calculate_dialect_score "侬好，今朝天气蛮好" shanghaiPattern = 94 / 399 ∧
    bestScore "侬好，今朝天气蛮好" = 94 / 399 :=
  ⟨detect_example, shanghai_score_example, bestScore_example⟩

/-- C3 counterexample: `suggest_dialect_conversion` with the target AUTO —
an identifier outside the configured profile set — silently returns the
text unchanged; the code defines no `UnknownDialectError` and raises on no
path. -/
theorem rewrite_unknown_target_refuted :
    suggest_dialect_conversion "你好" DialectType.AUTO = "你好" := rfl

/-- C3 amended: for every target dialect without a conversion map
(everything except SHANGHAI and SICHUAN, in particular AUTO, the only
identifier outside the profile set), `suggest_dialect_conversion` silently
returns the text unchanged instead of raising. -/
theorem rewrite_unknown_target_passthrough (text : String) (d : DialectType)
    (h₁ : d ≠ DialectType.SHANGHAI) (h₂ : d ≠ DialectType.SICHUAN) :
    suggest_dialect_conversion text d = text := by
  cases d
  · rfl
  · exact absurd rfl h₁
  · exact absurd rfl h₂
  · rfl
  · rfl
  · rfl

/-- Witness for the amended C3 at `"abc"` and AUTO. -/
theorem rewrite_unknown_target_passthrough_witness :
    suggest_dialect_conversion "abc" DialectType.AUTO = "abc" :=
  rewrite_unknown_target_passthrough "abc" DialectType.AUTO
    (fun hc => nomatch hc) (fun hc => nomatch hc)

/-- C4: the confidence threshold is inclusive: for non-blank text, when the
best score is at least the threshold, `detect_dialect` returns a scored
dialect attaining the best score; when the best score is strictly below
the threshold it returns STANDARD paired with that best score itself. -/
theorem detect_threshold_inclusive (text : String) (θ : ℚ)
    (h : isBlank text = false) :
    (θ ≤ bestScore text →
      (detect_dialect text θ).1 ∈ scoredDialects ∧
      scoreOf text (detect_dialect text θ).1 = bestScore text ∧
      (detect_dialect text θ).2 = bestScore text) ∧
    (bestScore text < θ →
      detect_dialect text θ = (DialectType.STANDARD, bestScore text)) := by
  rw [detect_dialect_of_not_blank text θ h]
  constructor
  · intro hθ
    rw [if_neg (not_lt.2 hθ)]
    exact ⟨firstArgmax_fst_mem text, firstArgmax_scoreOf text,
      firstArgmax_snd text⟩
  · intro hθ
    rw [if_pos hθ]

/-- Witness for C4 at text `"abc"` and threshold 0. -/
theorem detect_threshold_inclusive_witness :
    ((0 : ℚ) ≤ bestScore "abc" →
      (detect_dialect "abc" 0).1 ∈ scoredDialects ∧
      scoreOf "abc" (detect_dialect "abc" 0).1 = bestScore "abc" ∧
      (detect_dialect "abc" 0).2 = bestScore "abc") ∧
    (bestScore "abc" < 0 →
      detect_dialect "abc" 0 = (DialectType.STANDARD, bestScore "abc")) :=
  detect_threshold_inclusive "abc" 0 rfl

/-- C5 counterexample: on `"abc"` every scored profile attains the maximal
score (a tie between two or more non-STANDARD profiles), yet with the
default threshold 0.3 `detect_dialect` returns STANDARD, not the
earliest-declared tied profile SHANGHAI. -/
theorem detect_tie_break_refuted :
    calculate_dialect_score "abc" shanghaiPattern = bestScore "abc" ∧
    calculate_dialect_score "abc" sichuanPattern = bestScore "abc" ∧
    DialectType.SHANGHAI ≠ DialectType.SICHUAN ∧
    (detect_dialect "abc" (3 / 10)).1 = DialectType.STANDARD ∧
    DialectType.STANDARD ≠ DialectType.SHANGHAI := by
  refine ⟨?_, ?_, (fun hc => nomatch hc), ?_, (fun hc => nomatch hc)⟩
  · rw [shanghai_score_abc, bestScore_abc]
  · rw [sichuan_score_abc, bestScore_abc]
  · rw [detect_dialect_of_not_blank "abc" (3 / 10) rfl,
      if_pos (by rw [bestScore_abc]; norm_num)]

/-- C5 amended: when two distinct scored profiles attain the maximal score
AND that score is at least the threshold, `detect_dialect` returns
`firstArgmax`: the earliest-declared profile (declaration order SHANGHAI,
SICHUAN, GYEONGSANG, JEJU) attaining the maximal score. -/
theorem detect_tie_break (text : String) (θ : ℚ) (d₁ d₂ : DialectType)
    (h : isBlank text = false)
    (_h₁ : d₁ ∈ scoredDialects) (_h₂ : d₂ ∈ scoredDialects)
    (_hne : d₁ ≠ d₂)
    (_hs₁ : scoreOf text d₁ = bestScore text)
    (_hs₂ : scoreOf text d₂ = bestScore text)
    (hθ : θ ≤ bestScore text) :
    detect_dialect text θ = firstArgmax text ∧
    (firstArgmax text).1 ∈ scoredDialects ∧
    scoreOf text (firstArgmax text).1 = bestScore text := by
  refine ⟨?_, firstArgmax_fst_mem text, firstArgmax_scoreOf text⟩
  rw [detect_dialect_of_not_blank text θ h, if_neg (not_lt.2 hθ)]

/-- Witness for the amended C5: on `"abc"` with threshold 0, SHANGHAI and
SICHUAN tie at the maximal score 0. -/
theorem detect_tie_break_witness :
    detect_dialect "abc" 0 = firstArgmax "abc" ∧
    (firstArgmax "abc").1 ∈ scoredDialects ∧
    scoreOf "abc" (firstArgmax "abc").1 = bestScore "abc" :=
  detect_tie_break "abc" 0 DialectType.SHANGHAI DialectType.SICHUAN rfl
    (by simp [scoredDialects]) (by simp [scoredDialects])
    (fun hc => nomatch hc)
    (by rw [bestScore_abc]; exact shanghai_score_abc)
    (by rw [bestScore_abc]; exact sichuan_score_abc)
    (bestScore_nonneg "abc")

/-- C6: for empty or whitespace-only text, `detect_dialect` returns
`(STANDARD, 0)` for every threshold (by the first early return, before any
profile score is computed). -/
theorem detect_blank_default (text : String) (θ : ℚ)
    (h : isBlank text = true) :
    detect_dialect text θ = (DialectType.STANDARD, 0) :=
  detect_dialect_of_blank text θ h

/-- Witness for C6 at the empty text and a whitespace-only text. -/
theorem detect_blank_default_witness :
    detect_dialect "" (3 / 10) = (DialectType.STANDARD, 0) ∧
    detect_dialect " \t\n " (3 / 10) = (DialectType.STANDARD, 0) :=
  ⟨detect_blank_default "" (3 / 10) rfl,
    detect_blank_default " \t\n " (3 / 10) rfl⟩

/-- C7: `suggest_dialect_conversion` applies the target's conversion-map
entries sequentially in insertion order, each step a non-overlapping
leftmost `str.replace` (`pyReplace`), so later rules see earlier rules'
output; on `"你好，今天天气很好"` toward SHANGHAI it produces
`"侬好，今朝天气蛮好"`. -/
theorem rewrite_sequential_rules :
    (∀ text : String,
      suggest_dialect_conversion text DialectType.SHANGHAI =
        shanghaiConversionRules.foldl
          (fun converted r => pyReplace converted r.1 r.2) text) ∧
    (∀ text : String,
      suggest_dialect_conversion text DialectType.SICHUAN =
        sichuanConversionRules.foldl
          (fun converted r => pyReplace converted r.1 r.2) text) ∧
    suggest_dialect_conversion "你好，今天天气很好" DialectType.SHANGHAI =
      "侬好，今朝天气蛮好" :=
  ⟨fun _ => rfl, fun _ => rfl, rfl⟩

/-- C8: rewriting toward STANDARD is the identity on every text. -/
theorem rewrite_standard_identity (text : String) :
    suggest_dialect_conversion text DialectType.STANDARD = text := rfl

/-- C9: the confidence returned by `detect_dialect` always lies in
`[0, 1]`. -/
theorem detect_confidence_bounds (text : String) (θ : ℚ) :
    0 ≤ (detect_dialect text θ).2 ∧ (detect_dialect text θ).2 ≤ 1 := by
  rcases Bool.eq_false_or_eq_true (isBlank text) with hb | hb
  · rw [detect_dialect_of_blank text θ hb]
    norm_num
  · rw [detect_dialect_of_not_blank text θ hb]
    split_ifs
    · exact ⟨bestScore_nonneg text, (bestScore_le text).trans (by norm_num)⟩
    · rw [firstArgmax_snd]
      exact ⟨bestScore_nonneg text, (bestScore_le text).trans (by norm_num)⟩

/-- C10: the result of `detect_dialect` is STANDARD or one of the four
scored dialects and never AUTO; a non-STANDARD dialect comes with
confidence at least the threshold; STANDARD comes with confidence strictly
below the threshold or blank input; and the confidence never exceeds
9/10.5 = 6/7 (the pronunciation term is always 0). -/
theorem detect_result_invariant (text : String) (θ : ℚ) :
    ((detect_dialect text θ).1 = DialectType.STANDARD ∨
      (detect_dialect text θ).1 ∈ scoredDialects) ∧
    (detect_dialect text θ).1 ≠ DialectType.AUTO ∧
    ((detect_dialect text θ).1 ≠ DialectType.STANDARD →
      θ ≤ (detect_dialect text θ).2) ∧
    ((detect_dialect text θ).1 = DialectType.STANDARD →
      (detect_dialect text θ).2 < θ ∨ isBlank text = true) ∧
    (detect_dialect text θ).2 ≤ 6 / 7 := by
  rcases Bool.eq_false_or_eq_true (isBlank text) with hb | hb
  · rw [detect_dialect_of_blank text θ hb]
    exact ⟨Or.inl rfl, (fun hc => nomatch hc), (fun hne => absurd rfl hne),
      (fun _ => Or.inr hb), by norm_num⟩
  · rw [detect_dialect_of_not_blank text θ hb]
    by_cases hθ : bestScore text < θ
    · rw [if_pos hθ]
      exact ⟨Or.inl rfl, (fun hc => nomatch hc), (fun hne => absurd rfl hne),
        (fun _ => Or.inl hθ), bestScore_le text⟩
    · rw [if_neg hθ]
      refine ⟨Or.inr (firstArgmax_fst_mem text),
        (mem_scoredDialects_ne _ (firstArgmax_fst_mem text)).1,
        (fun _ => ?_),
        (fun hstd =>
          absurd hstd (mem_scoredDialects_ne _ (firstArgmax_fst_mem text)).2),
        ?_⟩
      · rw [firstArgmax_snd]
        exact not_lt.1 hθ
      · rw [firstArgmax_snd]
        exact bestScore_le text

end DialectDetector
